import Mathlib

/-!
Verification of the stock_market_chatbot repository.

The embedding below mirrors `app/utlits/functions.py` and `app/main.py`.
External effects (the two CSV reads and the Gemini call) are modelled by an
`Env` record: each CSV read either succeeds with its parsed rows or fails
(`none`, standing for any `pandas` exception), and the Gemini call either
returns text (`Except.ok`) or raises with a detail string (`Except.error`).
Every Python function here catches its own exceptions and returns a fallback
value, which the embedding reproduces by matching on the `Env` field.
-/

namespace StockChatbot

/-- An index-information record from `indexInfo.csv`, with the columns the
code reads (`Region`, `Exchange`, `Index`, `Currency`). -/
structure IndexRecord where
  region : String
  exchange : String
  index : String
  currency : String
deriving DecidableEq

/-- A stock-data row from `indexData.csv`. The router and the endpoints only
ever filter on the `Index` column and count rows, so the price columns are
carried by no claim and are not modelled; `date` keeps rows distinguishable. -/
structure StockRow where
  index : String
  date : String
deriving DecidableEq

/-- The outcome of the `genai` call inside `query_gemini`: either the
response text, or the exception's detail string. -/
inductive GeminiOutcome where
  | ok (text : String)
  | failed (detail : String)
deriving DecidableEq

/-- The external world as the Python code observes it. -/
structure Env where
  indexInfo : Option (List IndexRecord)
  indexData : Option (List StockRow)
  gemini : GeminiOutcome
deriving DecidableEq

/-- Does `needle` occur as a contiguous run inside `hay`? (Python's
`needle in hay` on strings, over the character lists.) -/
def containsSeq (needle : List Char) : List Char → Bool
  | [] => needle.isEmpty
  | c :: rest => List.isPrefixOf needle (c :: rest) || containsSeq needle rest

/-- Python's `needle in hay` substring test on strings. -/
def pyIn (needle hay : String) : Bool :=
  containsSeq needle.data hay.data

/-- Python's `x in [...]` membership test on a list of strings. -/
def inList (x : String) : List String → Bool
  | [] => false
  | y :: ys => x == y || inList x ys

/-- Python's `str.lower()` (the messages and CSV fields are ASCII). -/
def pyLower (s : String) : String :=
  String.mk (s.data.map Char.toLower)

/-- Python's `str.upper()`. -/
def pyUpper (s : String) : String :=
  String.mk (s.data.map Char.toUpper)

/-- Accumulating worker for `pySplit`: the current partial token is carried
reversed in `acc`. -/
def splitTokens : List Char → List Char → List String
  | [], acc => if acc.isEmpty then [] else [String.mk acc.reverse]
  | c :: cs, acc =>
      if c.isWhitespace then
        if acc.isEmpty then splitTokens cs []
        else String.mk acc.reverse :: splitTokens cs []
      else splitTokens cs (c :: acc)

/-- Python's `str.split()` with no argument: split on whitespace runs and
drop the empty pieces. -/
def pySplit (s : String) : List String :=
  splitTokens s.data []

/-- Drop leading whitespace characters. -/
def dropLeadingWs : List Char → List Char
  | [] => []
  | c :: cs => if c.isWhitespace then dropLeadingWs cs else c :: cs

/-- Python's `str.strip()` with no argument: remove leading and trailing
whitespace. -/
def pyStrip (s : String) : String :=
  String.mk ((dropLeadingWs (dropLeadingWs s.data).reverse).reverse)

/-- pandas `DataFrame.head(n)` on a list of rows: the first `n` rows when
`n ≥ 0`, and — like the Python slice `[:n]` — all but the last `|n|` rows
when `n` is negative. -/
def pandasHead (rows : List StockRow) (n : Int) : List StockRow :=
  if 0 ≤ n then rows.take n.toNat
  else rows.take ((rows.length : Int) + n).toNat

/-- `get_stock_data_by_index`: read `indexData.csv`, keep the rows whose
`Index` equals the symbol, take the first `limit`; any fault yields `[]`. -/
def get_stock_data_by_index (env : Env) (index_symbol : String) (limit : Int) :
    List StockRow :=
  match env.indexData with
  | none => []
  | some rows => pandasHead (rows.filter (fun r => r.index == index_symbol)) limit

/-- The row filter of `get_index_info_by_region`:
`df['Region'].str.contains(region, case=False)`, i.e. case-insensitive
substring containment of the phrase in the record's region. -/
def regionMatches (rowRegion pat : String) : Bool :=
  pyIn (pyLower pat) (pyLower rowRegion)

/-- `get_index_info_by_region`: read `indexInfo.csv` and keep the records
whose `Region` contains the phrase case-insensitively; any fault yields `[]`. -/
def get_index_info_by_region (env : Env) (region : String) : List IndexRecord :=
  match env.indexInfo with
  | none => []
  | some recs => recs.filter (fun r => regionMatches r.region region)

/-- `query_gemini`: return the model's text, or — its `except` branch — the
string `"Error generating response: <detail>"` when the call raises. -/
def query_gemini (env : Env) (_prompt _context : String) : String :=
  match env.gemini with
  | GeminiOutcome.ok t => t
  | GeminiOutcome.failed e => "Error generating response: " ++ e

/-- One line of the context string built by `create_context_for_chat`. -/
def contextLine (acc : String) (r : IndexRecord) : String :=
  acc ++ "- " ++ r.index ++ " (" ++ r.exchange ++ ", " ++ r.region ++ ", "
      ++ r.currency ++ ")\n"

/-- `create_context_for_chat`: describe the available indices, falling back
to a fixed sentence when the CSV read raises. -/
def create_context_for_chat (env : Env) : String :=
  match env.indexInfo with
  | none => "Stock market data is available for various global indices."
  | some recs =>
      (recs.foldl contextLine "Available stock market indices:\n")
        ++ "\nTotal indices available: " ++ toString recs.length
        ++ "\n\nData includes historical price information (Open, High, Low, Close, Volume) for these indices."

/-- The symbol allow-list of `process_chat_message`. -/
def symbols : List String := ["nya", "ixic", "hsi", "n225", "gspc"]

/-- The region allow-list of `process_chat_message`. -/
def regions : List String :=
  ["united states", "china", "japan", "europe", "germany", "hong kong"]

/-- The payload attached to a chat answer: either up to five stock rows for a
symbol, or the index records of a region. -/
inductive ChatData where
  | stock_data (rows : List StockRow)
  | index_info (recs : List IndexRecord)
deriving DecidableEq

/-- The dictionary `process_chat_message` returns (the body of the API's
`ChatResponse`). -/
structure ChatResult where
  response : String
  data : Option ChatData
  success : Bool
  error : Option String
deriving DecidableEq

/-- The symbol loop of `process_chat_message`: walk the lower-cased message
tokens; at the first token on the symbol allow-list fetch up to 5 rows, set
the payload if any came back, and `break`. -/
def symbolLoop (env : Env) : List String → Option ChatData → Option ChatData
  | [], data => data
  | w :: ws, data =>
      if inList w symbols then
        let stock_data := get_stock_data_by_index env (pyUpper w) 5
        if stock_data.isEmpty then data else some (ChatData.stock_data stock_data)
      else symbolLoop env ws data

/-- The region loop of `process_chat_message`: walk the region allow-list; at
the first phrase contained in the lower-cased message fetch its records, set
the payload if any came back, and `break`. -/
def regionLoop (env : Env) (lowerMsg : String) :
    List String → Option ChatData → Option ChatData
  | [], data => data
  | r :: rs, data =>
      if pyIn r lowerMsg then
        let index_info := get_index_info_by_region env r
        if index_info.isEmpty then data else some (ChatData.index_info index_info)
      else regionLoop env lowerMsg rs data

/-- `process_chat_message`: build the context, query Gemini, then run the two
detectors. Every callee is total (each catches its own exceptions and returns
a fallback), so the function's own `except` branch is dead code and the
result always carries `success = True` and no `error` key. -/
def process_chat_message (env : Env) (message : String) : ChatResult :=
  let context := create_context_for_chat env
  let response := query_gemini env message context
  let data0 : Option ChatData := none
  let data1 :=
    if symbols.any (fun w => pyIn w (pyLower message)) then
      symbolLoop env (pySplit (pyLower message)) data0
    else data0
  let data2 := regionLoop env (pyLower message) regions data1
  { response := response, data := data2, success := true, error := none }

/-- A FastAPI `HTTPException` as the client sees it. -/
structure HTTPError where
  status : Nat
  detail : String
deriving DecidableEq

/-- What an endpoint hands back to the client: a body, or an HTTP error
response produced by a raised `HTTPException`. -/
inductive ApiResult (α : Type) where
  | ok (body : α)
  | httpError (e : HTTPError)
deriving DecidableEq

/-- `POST /chat`: a blank message raises `HTTPException(400)` inside the
handler's `try`, and the handler's blanket `except Exception` then converts
that very exception into a 500 (`str(e)` of an `HTTPException` is
`"<status>: <detail>"`). A non-blank message reaches the router, which never
raises. -/
def chat_endpoint (env : Env) (message : String) : ApiResult ChatResult :=
  let inner : ApiResult ChatResult :=
    if pyStrip message == "" then ApiResult.httpError ⟨400, "Message cannot be empty"⟩
    else ApiResult.ok (process_chat_message env message)
  match inner with
  | ApiResult.httpError e =>
      ApiResult.httpError
        ⟨500, "Error processing chat: " ++ toString e.status ++ ": " ++ e.detail⟩
  | ApiResult.ok r => ApiResult.ok r

/-- `GET /stock-data/{index_symbol}`: clamp the limit to at most 100, fetch,
and answer 404 on an empty result (the endpoint re-raises `HTTPException`
before its catch-all, so the 404 survives). -/
def get_stock_data (env : Env) (index_symbol : String) (limit : Int) :
    ApiResult (List StockRow) :=
  let limit := if limit > 100 then (100 : Int) else limit
  let stock_data := get_stock_data_by_index env (pyUpper index_symbol) limit
  if stock_data.isEmpty then
    ApiResult.httpError ⟨404, "No data found for index: " ++ index_symbol⟩
  else ApiResult.ok stock_data

/-- `GET /stock-data/{index_symbol}` with the `limit` query parameter
omitted: FastAPI substitutes the declared default of 10. -/
def get_stock_data_default (env : Env) (index_symbol : String) :
    ApiResult (List StockRow) :=
  get_stock_data env index_symbol 10

/-- `GET /indices/region/{region}`: fetch and answer 404 on an empty
result. -/
def get_indices_by_region (env : Env) (region : String) :
    ApiResult (List IndexRecord) :=
  let index_info := get_index_info_by_region env region
  if index_info.isEmpty then
    ApiResult.httpError ⟨404, "No indices found for region: " ++ region⟩
  else ApiResult.ok index_info

/-- The number of rows in a successful stock-data response (0 on an error
response). -/
def okLength : ApiResult (List StockRow) → Nat
  | ApiResult.ok rows => rows.length
  | ApiResult.httpError _ => 0

/-- Witness dataset for C1: one Chinese index record. -/
def envC1w : Env :=
  ⟨some [⟨"China", "Shanghai Stock Exchange", "000001.SS", "CNY"⟩], some [],
    GeminiOutcome.ok "resp"⟩

/-- Counterexample dataset for C2: the NYA symbol has a row, but no index
record's region contains "china". -/
def envC2x : Env :=
  ⟨some [], some [⟨"NYA", "2020-01-02"⟩], GeminiOutcome.ok "r"⟩

/-- Witness dataset for C2: both the NYA symbol and the "china" region have
data. -/
def envC2w : Env :=
  ⟨some [⟨"China", "Shanghai Stock Exchange", "000001.SS", "CNY"⟩],
    some [⟨"NYA", "2020-01-02"⟩], GeminiOutcome.ok "r"⟩

/-- Dataset for C3: the Gemini call raises with detail "boom". -/
def envC3x : Env :=
  ⟨some [], some [], GeminiOutcome.failed "boom"⟩

/-- Counterexample dataset for C4: both GSPC and NYA have rows. -/
def envC4x : Env :=
  ⟨some [], some [⟨"GSPC", "d1"⟩, ⟨"NYA", "d2"⟩], GeminiOutcome.ok "r"⟩

/-- Dataset for C5: both CSV reads fault (`DataUnavailable`). -/
def envC5x : Env :=
  ⟨none, none, GeminiOutcome.ok "r"⟩

/-- Dataset for C6 (its content is irrelevant to the blank-message path). -/
def envC6x : Env :=
  ⟨some [], some [], GeminiOutcome.ok "r"⟩

/-- Dataset for C7: three NYA rows. -/
def envC7x : Env :=
  ⟨some [], some [⟨"NYA", "d1"⟩, ⟨"NYA", "d2"⟩, ⟨"NYA", "d3"⟩],
    GeminiOutcome.ok "r"⟩

/-- Counterexample dataset for C8: the stock table is readable but holds no
rows at all, in particular none for NYA. -/
def envC8x : Env :=
  ⟨some [], some [], GeminiOutcome.ok "rr"⟩

/-- Witness dataset for C8: one NYA row. -/
def envC8w : Env :=
  ⟨some [], some [⟨"NYA", "d1"⟩], GeminiOutcome.ok "r"⟩

/-- Dataset for C10, fault side: the indexInfo read raises. -/
def envC10f : Env :=
  ⟨none, some [], GeminiOutcome.ok "r"⟩

/-- Dataset for C10, no-match side: one Japanese record, so a "china" query
matches nothing. -/
def envC10n : Env :=
  ⟨some [⟨"Japan", "Tokyo Stock Exchange", "N225", "JPY"⟩], some [],
    GeminiOutcome.ok "r"⟩

/- ------------------------------------------------------------------ -/
/- Shared lemmas about the two detector loops.                         -/
/- ------------------------------------------------------------------ -/

/-- The region loop is the first-match search over the allow-list: it acts
exactly on `find?` of the substring test, and leaves the payload alone when
that region's lookup comes back empty. -/
theorem regionLoop_eq_find (env : Env) (m : String) (rs : List String)
    (d : Option ChatData) :
    regionLoop env m rs d =
      match rs.find? (fun r => pyIn r m) with
      | none => d
      | some r =>
          if (get_index_info_by_region env r).isEmpty then d
          else some (ChatData.index_info (get_index_info_by_region env r)) := by
  induction rs with
  | nil => rfl
  | cons r rest ih =>
      cases h : pyIn r m with
      | true => simp [regionLoop, h, List.find?_cons]
      | false => simp [regionLoop, h, List.find?_cons, ih]

/-- The symbol loop is the first-match search over the message tokens: it
acts exactly on `find?` of allow-list membership, and leaves the payload
alone when that symbol's lookup comes back empty. -/
theorem symbolLoop_eq_find (env : Env) (ws : List String)
    (d : Option ChatData) :
    symbolLoop env ws d =
      match ws.find? (fun t => inList t symbols) with
      | none => d
      | some w =>
          if (get_stock_data_by_index env (pyUpper w) 5).isEmpty then d
          else some (ChatData.stock_data (get_stock_data_by_index env (pyUpper w) 5)) := by
  induction ws with
  | nil => rfl
  | cons w rest ih =>
      cases h : inList w symbols with
      | true => simp [symbolLoop, h, List.find?_cons]
      | false => simp [symbolLoop, h, List.find?_cons, ih]

/-- Unfolding of the payload computed by `process_chat_message`. -/
theorem process_data_eq (env : Env) (message : String) :
    (process_chat_message env message).data =
      regionLoop env (pyLower message) regions
        (if symbols.any (fun w => pyIn w (pyLower message)) then
          symbolLoop env (pySplit (pyLower message)) none
        else none) := rfl

/-- With a non-negative limit, `get_stock_data_by_index` returns at most
`limit` rows. -/
theorem get_stock_data_by_index_length_le (env : Env) (s : String) (n : Int)
    (h : 0 ≤ n) : (get_stock_data_by_index env s n).length ≤ n.toNat := by
  unfold get_stock_data_by_index
  cases env.indexData with
  | none => simp
  | some rows =>
      simp only [pandasHead, if_pos h, List.length_take]
      exact Nat.min_le_left _ _

/- ------------------------------------------------------------------ -/
/- Claims.                                                             -/
/- ------------------------------------------------------------------ -/

/-- C9: `process_chat_message` always reports success: every collaborator it
calls catches its own exceptions and returns a fallback value, so the
function's own except branch is unreachable and the returned dictionary has
`success = True` and no `error` key, for every message and every state of
the external world. -/
theorem C9_router_always_succeeds (env : Env) (message : String) :
    (process_chat_message env message).success = true
    ∧ (process_chat_message env message).error = none :=
  ⟨rfl, rfl⟩

/-- C1: the region detector scans the fixed allow-list
`["united states", "china", "japan", "europe", "germany", "hong kong"]` in
order and fires on the first phrase that is a substring of the lower-cased
message (captured by `find?` over that list); for the message
"what indices are in china" the first hit is "china", and when the dataset
has records whose region contains "china" the attached payload is exactly
those records. -/
theorem C1_region_first_hit_china (env : Env)
    (h : get_index_info_by_region env "china" ≠ []) :
    regions.find? (fun r => pyIn r (pyLower "what indices are in china"))
        = some "china"
    ∧ (process_chat_message env "what indices are in china").data
        = some (ChatData.index_info (get_index_info_by_region env "china")) := by
  refine ⟨by decide, ?_⟩
  rw [process_data_eq]
  have hgate : symbols.any (fun w => pyIn w (pyLower "what indices are in china"))
      = false := by decide
  rw [hgate, if_neg (by simp), regionLoop_eq_find]
  have hfind : regions.find? (fun r => pyIn r (pyLower "what indices are in china"))
      = some "china" := by decide
  rw [hfind]
  have hne : (get_index_info_by_region env "china").isEmpty = false :=
    List.isEmpty_eq_false.mpr h
  simp [hne]

/-- Witness for C1 at a concrete dataset holding one Chinese record. -/
theorem C1_region_first_hit_china_witness :
    regions.find? (fun r => pyIn r (pyLower "what indices are in china"))
        = some "china"
    ∧ (process_chat_message envC1w "what indices are in china").data
        = some (ChatData.index_info (get_index_info_by_region envC1w "china")) :=
  C1_region_first_hit_china envC1w (by decide)

/-- C2 counterexample: the message "tell me about nya in china" names both a
symbol and a region, yet when the "china" lookup returns no records the
region loop keeps the already-attached NYA bars — region detection does not
unconditionally overwrite the symbol payload. -/
theorem C2_counterexample :
    (process_chat_message envC2x "tell me about nya in china").data
        = some (ChatData.stock_data [⟨"NYA", "2020-01-02"⟩])
    ∧ (process_chat_message envC2x "tell me about nya in china").data
        ≠ some (ChatData.index_info (get_index_info_by_region envC2x "china")) :=
  ⟨by decide, by decide⟩

/-- C2 amended: for a query whose lower-cased text contains a region phrase
(`find?` over the allow-list firing on `r`), the final payload is the region
records — beating any symbol payload — provided the lookup for `r` returns
at least one record. -/
theorem C2_region_payload_wins (env : Env) (msg r : String)
    (hfind : regions.find? (fun p => pyIn p (pyLower msg)) = some r)
    (hne : get_index_info_by_region env r ≠ []) :
    (process_chat_message env msg).data
      = some (ChatData.index_info (get_index_info_by_region env r)) := by
  rw [process_data_eq, regionLoop_eq_find, hfind]
  have hempty : (get_index_info_by_region env r).isEmpty = false :=
    List.isEmpty_eq_false.mpr hne
  simp [hempty]

/-- Witness for C2's amended statement: with both NYA rows and a Chinese
record present, the region payload wins. -/
theorem C2_region_payload_wins_witness :
    (process_chat_message envC2w "tell me about nya in china").data
      = some (ChatData.index_info (get_index_info_by_region envC2w "china")) :=
  C2_region_payload_wins envC2w "tell me about nya in china" "china"
    (by decide) (by decide)

/-- C3 counterexample: when the Gemini call fails with detail "boom", the
router still answers with `success = True`, no error field, and the fallback
text produced inside `query_gemini` — not the `success = False` answer the
claim demands. -/
theorem C3_counterexample :
    (process_chat_message envC3x "hello").success = true
    ∧ (process_chat_message envC3x "hello").error = none
    ∧ (process_chat_message envC3x "hello").response
        = "Error generating response: boom" :=
  ⟨rfl, rfl, by decide⟩

/-- C3 amended: a Completion Service failure never reaches the router's
failure branch: `query_gemini` catches it and returns the string
`"Error generating response: <detail>"` as the ordinary response, and the
answer carries `success = true` with no error field. -/
theorem C3_completion_failure_soft (env : Env) (msg e : String)
    (hg : env.gemini = GeminiOutcome.failed e) :
    (process_chat_message env msg).success = true
    ∧ (process_chat_message env msg).error = none
    ∧ (process_chat_message env msg).response
        = "Error generating response: " ++ e := by
  refine ⟨rfl, rfl, ?_⟩
  show query_gemini env msg (create_context_for_chat env) = _
  simp [query_gemini, hg]

/-- Witness for C3's amended statement at the concrete failing call. -/
theorem C3_completion_failure_soft_witness :
    (process_chat_message envC3x "hello").success = true
    ∧ (process_chat_message envC3x "hello").error = none
    ∧ (process_chat_message envC3x "hello").response
        = "Error generating response: " ++ "boom" :=
  C3_completion_failure_soft envC3x "hello" "boom" rfl

/-- C4 counterexample: for the message "gspc nya" (both tokens on the
allow-list) the attached bars are GSPC's — the first matching token in
message order — not NYA's, the first matching symbol in allow-list order
`["nya", "ixic", "hsi", "n225", "gspc"]` as the claim states. -/
theorem C4_counterexample :
    (process_chat_message envC4x "gspc nya").data
        = some (ChatData.stock_data [⟨"GSPC", "d1"⟩])
    ∧ (process_chat_message envC4x "gspc nya").data
        ≠ some (ChatData.stock_data (get_stock_data_by_index envC4x (pyUpper "nya") 5)) :=
  ⟨by decide, by decide⟩

/-- C4 amended: when the message passes the symbol substring gate and its
whitespace tokens contain allow-listed symbols, the symbol whose bars are
attached is the FIRST MATCHING TOKEN IN MESSAGE ORDER (`find?` over the
token list), scanning stops there, and — absent any region phrase — its
non-empty bar list is the final payload. -/
theorem C4_first_token_wins (env : Env) (msg w : String)
    (hany : symbols.any (fun s => pyIn s (pyLower msg)) = true)
    (hfind : (pySplit (pyLower msg)).find? (fun t => inList t symbols) = some w)
    (hreg : regions.find? (fun r => pyIn r (pyLower msg)) = none)
    (hsd : get_stock_data_by_index env (pyUpper w) 5 ≠ []) :
    (process_chat_message env msg).data
      = some (ChatData.stock_data (get_stock_data_by_index env (pyUpper w) 5)) := by
  rw [process_data_eq, regionLoop_eq_find, hreg, if_pos hany,
    symbolLoop_eq_find, hfind]
  have hempty : (get_stock_data_by_index env (pyUpper w) 5).isEmpty = false :=
    List.isEmpty_eq_false.mpr hsd
  simp [hempty]

/-- Witness for C4's amended statement: "gspc nya" attaches GSPC's bars. -/
theorem C4_first_token_wins_witness :
    (process_chat_message envC4x "gspc nya").data
      = some (ChatData.stock_data (get_stock_data_by_index envC4x (pyUpper "gspc") 5)) :=
  C4_first_token_wins envC4x "gspc nya" "gspc" (by decide) (by decide)
    (by decide) (by decide)

/-- C5 counterexample: with both CSV reads faulting (`DataUnavailable`), the
router answers `success = True` with no error field — not the
`success = False` answer with populated errorText that the claim demands. -/
theorem C5_counterexample :
    (process_chat_message envC5x "what indices are in china").success = true
    ∧ (process_chat_message envC5x "what indices are in china").error = none :=
  ⟨rfl, rfl⟩

/-- C5 amended: the router indeed never raises — `process_chat_message` is
total — but a dataset fault is absorbed inside the collaborators, which
return fallbacks: the answer still has `success = true`, no error field, and
merely lacks any attached payload. -/
theorem C5_dataset_fault_absorbed (env : Env) (msg : String)
    (hI : env.indexInfo = none) (hD : env.indexData = none) :
    (process_chat_message env msg).success = true
    ∧ (process_chat_message env msg).error = none
    ∧ (process_chat_message env msg).data = none := by
  refine ⟨rfl, rfl, ?_⟩
  have hsym : (if symbols.any (fun w => pyIn w (pyLower msg)) then
      symbolLoop env (pySplit (pyLower msg)) none else none) = none := by
    cases hg : symbols.any (fun w => pyIn w (pyLower msg)) with
    | false => simp
    | true =>
        rw [if_pos rfl, symbolLoop_eq_find]
        cases hw : (pySplit (pyLower msg)).find? (fun t => inList t symbols) with
        | none => rfl
        | some w => simp [get_stock_data_by_index, hD]
  rw [process_data_eq, hsym, regionLoop_eq_find]
  cases hr : regions.find? (fun r => pyIn r (pyLower msg)) with
  | none => rfl
  | some r => simp [get_index_info_by_region, hI]

/-- Witness for C5's amended statement at the double-fault dataset. -/
theorem C5_dataset_fault_absorbed_witness :
    (process_chat_message envC5x "tell me about nya").success = true
    ∧ (process_chat_message envC5x "tell me about nya").error = none
    ∧ (process_chat_message envC5x "tell me about nya").data = none :=
  C5_dataset_fault_absorbed envC5x "tell me about nya" rfl rfl

/-- C6: a whitespace-only chat message is rejected before the Query Router
runs — the 400 `HTTPException` is raised ahead of the `process_chat_message`
call — but the endpoint's blanket `except Exception` catches that very
exception and re-raises it as a 500, so the client sees status 500, not the
4xx the code's own `HTTPException(status_code=400)` intends (the sibling
endpoints re-raise `HTTPException` untouched; this handler omits that). -/
theorem C6_blank_message_rejected_as_500 :
    chat_endpoint envC6x "   "
      = ApiResult.httpError
          ⟨500, "Error processing chat: 400: Message cannot be empty"⟩ := by
  decide

/-- C7 counterexample: with three NYA rows, `limit = -1` reaches pandas
`head(-1)` and returns two rows — more than `min(-1, 100)`, so the claim's
bound fails for negative `N`. -/
theorem C7_counterexample :
    get_stock_data envC7x "nya" (-1) = ApiResult.ok [⟨"NYA", "d1"⟩, ⟨"NYA", "d2"⟩]
    ∧ ¬ ((okLength (get_stock_data envC7x "nya" (-1)) : Int) ≤ min (-1) 100) :=
  ⟨by decide, by decide⟩

/-- C7 amended: for every NON-NEGATIVE limit `n` the endpoint returns at
most `min(n, 100)` rows (so `limit = 500` yields at most 100); the omitted
limit defaults to 10; and when no row matches the symbol the endpoint
answers 404. Negative limits instead flow into pandas `head(n < 0)`, which
keeps all but the last `|n|` matching rows. -/
theorem C7_nonneg_limit_clamped (env envE : Env) (sym symE : String)
    (n nE : Int) (rowsE : List StockRow) (hn : 0 ≤ n)
    (hrowsE : envE.indexData = some rowsE)
    (hempty : rowsE.filter (fun r => r.index == pyUpper symE) = []) :
    (okLength (get_stock_data env sym n) : Int) ≤ min n 100
    ∧ get_stock_data_default env sym = get_stock_data env sym 10
    ∧ get_stock_data envE symE nE
        = ApiResult.httpError ⟨404, "No data found for index: " ++ symE⟩ := by
  refine ⟨?_, rfl, ?_⟩
  · have hcm : (if n > 100 then (100 : Int) else n) = min n 100 := by
      split <;> omega
    have hc0 : (0 : Int) ≤ min n 100 := by omega
    have hlen := get_stock_data_by_index_length_le env (pyUpper sym)
      (min n 100) hc0
    simp only [get_stock_data, hcm]
    cases hE : (get_stock_data_by_index env (pyUpper sym) (min n 100)).isEmpty with
    | true => simp [hE, okLength]; omega
    | false => simp only [hE, Bool.false_eq_true, if_false, okLength]; omega
  · simp [get_stock_data, get_stock_data_by_index, hrowsE, hempty, pandasHead]

/-- Witness for C7's amended statement: `limit = 500` on three NYA rows
stays within 100, the default is 10, and an unknown symbol answers 404. -/
theorem C7_nonneg_limit_clamped_witness :
    (okLength (get_stock_data envC7x "nya" 500) : Int) ≤ min 500 100
    ∧ get_stock_data_default envC7x "nya" = get_stock_data envC7x "nya" 10
    ∧ get_stock_data envC7x "msft" 500
        = ApiResult.httpError ⟨404, "No data found for index: msft"⟩ :=
  C7_nonneg_limit_clamped envC7x envC7x "nya" "msft" 500 500
    [⟨"NYA", "d1"⟩, ⟨"NYA", "d2"⟩, ⟨"NYA", "d3"⟩] (by decide) (by decide)
    (by decide)

/-- C8 counterexample: for "tell me about nya" against a dataset with no NYA
rows, attachedData is absent (`none`) rather than the symbol's (empty) bar
list — the `if stock_data:` guard skips the assignment, so the claim's
"attachedData is that symbol's Bar list" fails in the zero-row case. -/
theorem C8_counterexample :
    (process_chat_message envC8x "tell me about nya").data = none
    ∧ (process_chat_message envC8x "tell me about nya").data
        ≠ some (ChatData.stock_data (get_stock_data_by_index envC8x (pyUpper "nya") 5)) :=
  ⟨by decide, by decide⟩

/-- C8 amended: for a query passing the symbol gate whose first allow-listed
token is `w` and containing no region phrase, attachedData is `w`'s bar list
(of length at most 5) when that list is non-empty, and is absent when the
symbol has no rows. -/
theorem C8_single_symbol_bars (env : Env) (msg w : String)
    (hany : symbols.any (fun s => pyIn s (pyLower msg)) = true)
    (hfind : (pySplit (pyLower msg)).find? (fun t => inList t symbols) = some w)
    (hreg : regions.find? (fun r => pyIn r (pyLower msg)) = none) :
    (process_chat_message env msg).data
      = (if (get_stock_data_by_index env (pyUpper w) 5).isEmpty then none
         else some (ChatData.stock_data (get_stock_data_by_index env (pyUpper w) 5)))
    ∧ (get_stock_data_by_index env (pyUpper w) 5).length ≤ 5 := by
  constructor
  · rw [process_data_eq, regionLoop_eq_find, hreg, if_pos hany,
      symbolLoop_eq_find, hfind]
  · exact get_stock_data_by_index_length_le env (pyUpper w) 5 (by omega)

/-- Witness for C8's amended statement: "tell me about nya" with one NYA row
attaches exactly that row. -/
theorem C8_single_symbol_bars_witness :
    (process_chat_message envC8w "tell me about nya").data
      = (if (get_stock_data_by_index envC8w (pyUpper "nya") 5).isEmpty then none
         else some (ChatData.stock_data (get_stock_data_by_index envC8w (pyUpper "nya") 5)))
    ∧ (get_stock_data_by_index envC8w (pyUpper "nya") 5).length ≤ 5 :=
  C8_single_symbol_bars envC8w "tell me about nya" "nya" (by decide)
    (by decide) (by decide)

/-- C10: `GET /indices/region/{region}` answers the same 404 both when the
indexInfo read faults (the helper converts the exception to `[]`) and when
no record's region contains the phrase — the two situations produce
identical responses, so a caller cannot tell them apart. -/
theorem C10_region_404_indistinguishable (env1 env2 : Env)
    (recs : List IndexRecord) (region : String)
    (h1 : env1.indexInfo = none)
    (h2 : env2.indexInfo = some recs)
    (h3 : recs.filter (fun r => regionMatches r.region region) = []) :
    get_indices_by_region env1 region
      = ApiResult.httpError ⟨404, "No indices found for region: " ++ region⟩
    ∧ get_indices_by_region env2 region
      = ApiResult.httpError ⟨404, "No indices found for region: " ++ region⟩ := by
  constructor
  · simp [get_indices_by_region, get_index_info_by_region, h1]
  · simp [get_indices_by_region, get_index_info_by_region, h2, h3]

/-- Witness for C10 at a faulting dataset and at a Japan-only dataset
queried for "china". -/
theorem C10_region_404_indistinguishable_witness :
    get_indices_by_region envC10f "china"
      = ApiResult.httpError ⟨404, "No indices found for region: " ++ "china"⟩
    ∧ get_indices_by_region envC10n "china"
      = ApiResult.httpError ⟨404, "No indices found for region: " ++ "china"⟩ :=
  C10_region_404_indistinguishable envC10f envC10n
    [⟨"Japan", "Tokyo Stock Exchange", "N225", "JPY"⟩] "china" rfl rfl
    (by decide)

end StockChatbot
